import Mathlib

/-!
Verification of the mindat-rs client library core: the lenient scalar
decoders (`src/models/serde_helpers.rs`), the pagination envelopes
(`src/models/pagination.rs`), the query-parameter serialization of
`MindatClient::geomaterials` (`src/client.rs`), the response classifier
`MindatClient::handle_response` (`src/client.rs`), and the
`GeomaterialsOrdering` token table (`src/models/enums.rs`).

Machine integers are modelled as `Nat`/`Int` with explicit wrapping where
Rust casts wrap; JSON numbers are modelled as rationals (`ℚ`), which is
exact for every decimal literal; fallible operations return `Option` or
`Except`.
-/

namespace Mindat

/-- A well-formed JSON value, as seen by a serde deserializer after parsing.
Numbers are modelled as exact rationals: serde_json represents a number as
u64/i64/f64 depending on its written form, and an integral rational stands
for the integer form while a non-integral one stands for the float form. -/
inductive Json where
  | null
  | bool (b : Bool)
  | num (q : ℚ)
  | str (s : String)
  | arr (elems : List Json)
  | obj (members : List (String × Json))

/-- Value of a list of ASCII decimal digit characters, most significant first. -/
def digitsToNat (l : List Char) : Nat :=
  l.foldl (fun a c => a * 10 + (c.toNat - 48)) 0

/-- True when every character of the list is an ASCII decimal digit. -/
def allDigits (l : List Char) : Bool :=
  l.all Char.isDigit

/-- Decimal mantissa `Digit+ | Digit+ '.' Digit* | Digit* '.' Digit+` of the
Rust `f64` grammar. Returns the digit string's value together with the
number of fraction digits, so the mantissa's value is the first component
divided by ten to the second. -/
def decMantissa? (l : List Char) : Option (Nat × Nat) :=
  match l.splitOn '.' with
  | [ip] =>
    if ip ≠ [] ∧ allDigits ip then some (digitsToNat ip, 0) else none
  | [ip, fp] =>
    if (ip ≠ [] ∨ fp ≠ []) ∧ allDigits ip ∧ allDigits fp then
      some (digitsToNat (ip ++ fp), fp.length)
    else none
  | _ => none

/-- Exponent part `[+-]? Digit+` of the Rust `f64` grammar. -/
def decExponent? (l : List Char) : Option Int :=
  match l with
  | '+' :: d => if d ≠ [] ∧ allDigits d then some (digitsToNat d) else none
  | '-' :: d => if d ≠ [] ∧ allDigits d then some (-(digitsToNat d : Int)) else none
  | d => if d ≠ [] ∧ allDigits d then some (digitsToNat d) else none

/-- The rational `sgn * d * 10 ^ ex / 10 ^ fl`, built with `mkRat` over
integer arithmetic only. -/
def decValue (sgn : Int) (d : Nat) (fl : Nat) (ex : Int) : ℚ :=
  mkRat (sgn * d * 10 ^ ex.toNat) (10 ^ (fl + (-ex).toNat))

/-- Models Rust `str::parse::<f64>()` (the `FromStr` grammar: optional sign,
decimal mantissa, optional `e`/`E` exponent, case-insensitive), returning the
exact rational value. Rust additionally accepts `inf`/`infinity`/`nan`,
producing non-finite floats; those have no rational value and are mapped to
`none` here (no claim involves them). Finite decimal inputs round to the
nearest `f64` in Rust; the rational model keeps them exact, which agrees with
Rust on every value the spec mentions. -/
def parseF64? (s : String) : Option ℚ :=
  let l := s.toList.map Char.toLower
  match l with
  | '+' :: body => parseF64Body? 1 body
  | '-' :: body => parseF64Body? (-1) body
  | body => parseF64Body? 1 body
where
  /-- Unsigned part of the `f64` grammar, scaled by the sign. -/
  parseF64Body? (sgn : Int) (body : List Char) : Option ℚ :=
    if body = "inf".toList ∨ body = "infinity".toList ∨ body = "nan".toList then
      none
    else
      match body.splitOn 'e' with
      | [m] => (decMantissa? m).map (fun p => decValue sgn p.1 p.2 0)
      | [m, e] =>
        match decMantissa? m, decExponent? e with
        | some p, some ex => some (decValue sgn p.1 p.2 ex)
        | _, _ => none
      | _ => none

/-- Models Rust integer `FromStr`: optional sign then one or more decimal
digits, no other characters. Range checking is done by the callers. -/
def parseSignedInt? (s : String) : Option Int :=
  match s.toList with
  | '+' :: d => if d ≠ [] ∧ allDigits d then some (digitsToNat d) else none
  | '-' :: d => if d ≠ [] ∧ allDigits d then some (-(digitsToNat d : Int)) else none
  | d => if d ≠ [] ∧ allDigits d then some (digitsToNat d) else none

/-- Models Rust `str::parse::<i32>()`: the integer grammar with an i32 range
check; out-of-range input is an `Err`, hence `none`. -/
def parseI32? (s : String) : Option Int :=
  (parseSignedInt? s).bind fun n =>
    if -(2 ^ 31) ≤ n ∧ n < 2 ^ 31 then some n else none

/-- Rust `as i32` cast from a wider integer: two's-complement wrapping. -/
def wrapI32 (n : Int) : Int :=
  (n + 2 ^ 31) % 2 ^ 32 - 2 ^ 31

/-- Error text produced when a serde untagged enum matches no variant. -/
def untaggedError : String :=
  "data did not match any variant of untagged enum"

/-- `deserialize_optional_f64` (serde_helpers.rs lines 9-27): an untagged
`String | Number(f64) | Null`. An empty string is `None`; any other string is
`s.parse::<f64>().ok()`; a number is `Some`; null is `None`; any other JSON
shape matches no variant of the untagged enum and is a decode error. -/
def deserialize_optional_f64 (j : Json) : Except String (Option ℚ) :=
  match j with
  | .str s => if s = "" then .ok none else .ok (parseF64? s)
  | .num q => .ok (some q)
  | .null => .ok none
  | _ => .error untaggedError

/-- `deserialize_optional_i32` (serde_helpers.rs lines 51-69): an untagged
`String | Number(i64) | Null`. The `Number(i64)` variant only matches a JSON
number that is integral and within i64 range; the matched value is then cast
`as i32`, which wraps. Strings go through `s.parse::<i32>().ok()`. -/
def deserialize_optional_i32 (j : Json) : Except String (Option Int) :=
  match j with
  | .str s => if s = "" then .ok none else .ok (parseI32? s)
  | .num q =>
    if q.den = 1 ∧ -(2 ^ 63) ≤ q.num ∧ q.num < 2 ^ 63 then
      .ok (some (wrapI32 q.num))
    else .error untaggedError
  | .null => .ok none
  | _ => .error untaggedError

/-- Elementwise decode of a JSON array as `Vec<String>`: every element must
be a JSON string, otherwise the whole `Vec` variant fails to match. -/
def asStringList? : List Json → Option (List String)
  | [] => some []
  | .str s :: rest => (asStringList? rest).map (fun t => s :: t)
  | _ => none

/-- `deserialize_optional_vec_string` (serde_helpers.rs lines 72-92): an
untagged `String | Vec<String> | Null`. An empty string is `None`; a
non-empty bare string becomes the one-element vector `vec![s]`. -/
def deserialize_optional_vec_string (j : Json) : Except String (Option (List String)) :=
  match j with
  | .str s => if s = "" then .ok none else .ok (some [s])
  | .arr l =>
    match asStringList? l with
    | some v => .ok (some v)
    | none => .error untaggedError
  | .null => .ok none
  | _ => .error untaggedError

/-- serde element decode of `i32` from a JSON value: an integral number in
i32 range; nothing else matches. -/
def jsonI32? (j : Json) : Option Int :=
  match j with
  | .num q =>
    if q.den = 1 ∧ -(2 ^ 31) ≤ q.num ∧ q.num < 2 ^ 31 then some q.num else none
  | _ => none

/-- Elementwise decode of a JSON array with a given element decoder; one
failing element fails the whole `Vec` variant. -/
def decodeList? (dec : Json → Option α) : List Json → Option (List α)
  | [] => some []
  | j :: rest =>
    match dec j with
    | some v => (decodeList? dec rest).map (fun t => v :: t)
    | none => none

/-- `deserialize_optional_vec_i32` (serde_helpers.rs lines 95-113): an
untagged `String | Vec<i32> | Null`. Both string arms yield `Ok(None)` — the
source comment says a string cannot be parsed as `Vec<i32>`. -/
def deserialize_optional_vec_i32 (j : Json) : Except String (Option (List Int)) :=
  match j with
  | .str s => if s = "" then .ok none else .ok none
  | .arr l =>
    match decodeList? jsonI32? l with
    | some v => .ok (some v)
    | none => .error untaggedError
  | .null => .ok none
  | _ => .error untaggedError

/-- `deserialize_optional_vec<T>` (serde_helpers.rs lines 158-177): the
generic untagged `String | Vec<T> | Null`, with the element decode abstracted
as `dec`. Both string arms yield `Ok(None)`. -/
def deserialize_optional_vec (dec : Json → Option α) (j : Json) :
    Except String (Option (List α)) :=
  match j with
  | .str s => if s = "" then .ok none else .ok none
  | .arr l =>
    match decodeList? dec l with
    | some v => .ok (some v)
    | none => .error untaggedError
  | .null => .ok none
  | _ => .error untaggedError

/-! Pagination (src/models/pagination.rs). -/

/-- `PaginatedResponse<T>` (pagination.rs lines 6-16): the offset envelope.
`count` is Rust `Option<i64>`, modelled as `Option Int`. -/
structure PaginatedResponse (α : Type) where
  count : Option Int
  next : Option String
  previous : Option String
  results : List α

/-- Rust `c as usize` on a 64-bit target: two's-complement wrapping of an
`i64` value into `usize`. -/
def i64AsUsize (c : Int) : Nat :=
  (c % (2 : Int) ^ 64).toNat

/-- Rust `usize::div_ceil` for a nonzero divisor: `self / rhs`, plus one when
the remainder is nonzero. (With a zero divisor the Rust function panics on
its first division; the caller below models that case separately.) -/
def divCeilUsize (a b : Nat) : Nat :=
  a / b + (if a % b > 0 then 1 else 0)

/-- `PaginatedResponse::total_pages` (pagination.rs lines 29-33):
`self.count.map(|c| (c as usize).div_ceil(page_size))`. A Lean function must
be total, so the division-by-zero panic raised by `div_ceil` when
`page_size = 0` (and `count` is present) is surfaced as `.error ()`;
`.ok` is the value the Rust function returns. -/
def PaginatedResponse.total_pages (r : PaginatedResponse α) (page_size : Nat) :
    Except Unit (Option Nat) :=
  match r.count with
  | none => .ok none
  | some c =>
    if page_size = 0 then .error ()
    else .ok (some (divCeilUsize (i64AsUsize c) page_size))

/-- `PaginatedResponse::has_next` (pagination.rs lines 20-22). -/
def PaginatedResponse.has_next (r : PaginatedResponse α) : Bool :=
  r.next.isSome

/-- `PaginatedResponse::has_previous` (pagination.rs lines 25-27). -/
def PaginatedResponse.has_previous (r : PaginatedResponse α) : Bool :=
  r.previous.isSome

/-- `CursorPaginatedResponse<T>` (pagination.rs lines 36-44). -/
structure CursorPaginatedResponse (α : Type) where
  next : Option String
  previous : Option String
  results : List α

/-- First segment of the list strictly before the first occurrence of `c`. -/
def beforeFirst (c : Char) (l : List Char) : List Char :=
  l.takeWhile (fun x => x ≠ c)

/-- Remainder of the list strictly after the first occurrence of `c`, or
`none` when `c` does not occur. -/
def afterFirst (c : Char) : List Char → Option (List Char)
  | [] => none
  | x :: rest => if x = c then some rest else afterFirst c rest

/-- True when the list is a valid URL scheme: a leading ASCII letter followed
by letters, digits, `+`, `-` or `.`. -/
def schemeOk (l : List Char) : Bool :=
  match l with
  | [] => false
  | c :: rest =>
    c.isAlpha && rest.all (fun d => d.isAlphanum || d = '+' || d = '-' || d = '.')

/-- Modelled from the spec: the `url` crate used by `next_cursor`/`next_page`
is an external dependency, so its documented contract is modelled here,
restricted to what the claims exercise. A string parses as a URL only when it
starts with `scheme:` for a syntactically valid scheme (`Url::parse` fails on
inputs such as `"not a url"`); the query component is the text between the
first `?` and the fragment. The result is `none` on parse failure, otherwise
`some` of the query text (empty when the URL has no query). -/
def urlQuery? (s : String) : Option (List Char) :=
  let l := s.toList
  if schemeOk (beforeFirst ':' l) ∧ (afterFirst ':' l).isSome then
    some ((afterFirst '?' (beforeFirst '#' l)).getD [])
  else none

/-- Modelled from the spec: `Url::query_pairs` splits the query on `&`, skips
empty pieces, and splits each piece at its first `=` (a piece with no `=`
gets an empty value). Percent-decoding and `+`-to-space translation are
omitted; no claim involves encoded characters. -/
def queryPairs (q : List Char) : List (String × String) :=
  (q.splitOn '&').filterMap fun piece =>
    match piece with
    | [] => none
    | _ =>
      some (String.mk (beforeFirst '=' piece),
            String.mk ((afterFirst '=' piece).getD []))

/-- The query pairs of a URL string, or `none` when it does not parse. -/
def urlQueryPairs? (s : String) : Option (List (String × String)) :=
  (urlQuery? s).map queryPairs

/-- `CursorPaginatedResponse::next_cursor` (pagination.rs lines 58-66): parse
`next`, find the `cursor` query parameter, return its value. -/
def CursorPaginatedResponse.next_cursor (r : CursorPaginatedResponse α) :
    Option String :=
  r.next.bind fun u =>
    (urlQueryPairs? u).bind fun ps =>
      (ps.find? (fun p => p.1 = "cursor")).map (fun p => p.2)

/-- `CursorPaginatedResponse::next_page` (pagination.rs lines 69-77): parse
`next`, find the `page` query parameter, parse its value as `i32`. -/
def CursorPaginatedResponse.next_page (r : CursorPaginatedResponse α) :
    Option Int :=
  r.next.bind fun u =>
    (urlQueryPairs? u).bind fun ps =>
      (ps.find? (fun p => p.1 = "page")).bind (fun p => parseI32? p.2)

/-- `CursorPaginatedResponse::has_next` (pagination.rs lines 48-50). -/
def CursorPaginatedResponse.has_next (r : CursorPaginatedResponse α) : Bool :=
  r.next.isSome

/-! Enumerations (src/models/enums.rs). Only the variants are needed for the
query-model payload types; the serde rename tokens matter only for
`GeomaterialsOrdering`, whose serialization the claims exercise. -/

/-- `CrystalSystem` (enums.rs lines 7-17). -/
inductive CrystalSystem where
  | Isometric | Orthorhombic | Hexagonal | Trigonal | Tetragonal
  | Monoclinic | Triclinic | Amorphous | Icosahedral
deriving DecidableEq

/-- `CleavageType` (enums.rs lines 21-33). -/
inductive CleavageType where
  | NoneObserved | PoorIndistinct | ImperfectFair | DistinctGood | VeryGood | Perfect
deriving DecidableEq

/-- `Diapheny` (enums.rs lines 37-41). -/
inductive Diapheny where
  | Transparent | Translucent | Opaq
deriving DecidableEq

/-- `FractureType` (enums.rs lines 86-100). -/
inductive FractureType where
  | NoneObserved | IrregularUneven | Splintery | Hackly | Conchoidal
  | SubConchoidal | Fibrous | Micaceous | StepLike
deriving DecidableEq

/-- `LustreType` (enums.rs lines 104-121). -/
inductive LustreType where
  | Adamantine | SubAdamantine | Vitreous | SubVitreous | Resinous | Waxy
  | Greasy | Silky | Pearly | Metallic | SubMetallic | Dull | Earthy
deriving DecidableEq

/-- `Tenacity` (enums.rs lines 126-136). -/
inductive Tenacity where
  | Brittle | VeryBrittle | Sectile | Waxy | Flexible | Elastic | Fragile | Malleable
deriving DecidableEq

/-- `OpticalType` (enums.rs lines 140-144). -/
inductive OpticalType where
  | Isotropic | Uniaxial | Biaxial
deriving DecidableEq

/-- `OpticalSign` (enums.rs lines 148-155). -/
inductive OpticalSign where
  | Positive | Negative | Both
deriving DecidableEq

/-- `ImaStatus` (enums.rs lines 191-197). -/
inductive ImaStatus where
  | Approved | Discredited | PendingPublication | Grandfathered | Questionable
deriving DecidableEq

/-- `ImaNotes` (enums.rs lines 202-213). -/
inductive ImaNotes where
  | Rejected | PendingApproval | Group | Redefined | Renamed | Intermediate
  | PublishedWithoutApproval | UnnamedValid | UnnamedInvalid | NamedAmphibole
deriving DecidableEq

/-- `GeomaterialsOrdering` (enums.rs lines 217-246). -/
inductive GeomaterialsOrdering where
  | Id | IdDesc | Name | NameDesc | UpdateTime | UpdateTimeDesc
  | ApprovalYear | ApprovalYearDesc | Weighting | WeightingDesc
  | LocalityEntries | LocalityEntriesDesc | Photos | PhotosDesc
deriving DecidableEq, Fintype

/-- The `Display` impl for `GeomaterialsOrdering` (enums.rs lines 248-268);
the same tokens are the enum's serde `rename` attributes, so this is also
what `Serialize` emits. -/
def GeomaterialsOrdering.toToken : GeomaterialsOrdering → String
  | .Id => "id"
  | .IdDesc => "-id"
  | .Name => "name"
  | .NameDesc => "-name"
  | .UpdateTime => "updttime"
  | .UpdateTimeDesc => "-updttime"
  | .ApprovalYear => "approval_year"
  | .ApprovalYearDesc => "-approval_year"
  | .Weighting => "weighting"
  | .WeightingDesc => "-weighting"
  | .LocalityEntries => "minstats__ms_locentries"
  | .LocalityEntriesDesc => "-minstats__ms_locentries"
  | .Photos => "minstats__ms_photos"
  | .PhotosDesc => "-minstats__ms_photos"

/-- The serde `Deserialize` impl for `GeomaterialsOrdering` derived from the
`rename` attributes (enums.rs lines 217-246): each token parses back to its
variant and any other string is a decode error. -/
def GeomaterialsOrdering.fromToken? : String → Option GeomaterialsOrdering
  | "id" => some .Id
  | "-id" => some .IdDesc
  | "name" => some .Name
  | "-name" => some .NameDesc
  | "updttime" => some .UpdateTime
  | "-updttime" => some .UpdateTimeDesc
  | "approval_year" => some .ApprovalYear
  | "-approval_year" => some .ApprovalYearDesc
  | "weighting" => some .Weighting
  | "-weighting" => some .WeightingDesc
  | "minstats__ms_locentries" => some .LocalityEntries
  | "-minstats__ms_locentries" => some .LocalityEntriesDesc
  | "minstats__ms_photos" => some .Photos
  | "-minstats__ms_photos" => some .PhotosDesc
  | _ => none

/-! Error classification (src/error.rs and src/client.rs). -/

/-- `MindatError` (error.rs lines 6-39). The payloads carried by the wrapped
library errors (`reqwest::Error`, `url::ParseError`, `serde_json::Error`) are
modelled as their display text. -/
inductive MindatError where
  | Request (msg : String)
  | Url (msg : String)
  | Api (status : Nat) (message : String)
  | Deserialization (msg : String)
  | AuthenticationRequired
  | RateLimited
  | NotFound (msg : String)
  | InvalidParameter (msg : String)
deriving DecidableEq

/-- `StatusCode::is_success` from the http crate used by reqwest:
`200 ≤ status ≤ 299`. -/
def isSuccess (status : Nat) : Bool :=
  200 ≤ status && status ≤ 299

/-- `MindatClient::handle_response` (client.rs lines 131-157), abstracted
over the expected body type `α` and the `serde_json::from_str` decode
function `dec` for it. The response is modelled by its status code and body
text; the error branch's `text().await` fallback to `"Unknown error"` is a
transport failure outside this model, so the body is taken as given. -/
def handle_response (dec : String → Except String α) (status : Nat) (body : String) :
    Except MindatError α :=
  if isSuccess status then
    match dec body with
    | .ok v => .ok v
    | .error e => .error (.Deserialization e)
  else if status = 401 then .error .AuthenticationRequired
  else if status = 404 then .error (.NotFound body)
  else if status = 429 then .error .RateLimited
  else .error (.Api status body)

/-! Geomaterials query model and its request serialization
(src/models/geomaterials.rs lines 368-455 and src/client.rs lines 223-325). -/

/-- `GeomaterialsQuery` (geomaterials.rs lines 368-455), every field in
source order. Rust `f32`/`f64` payloads are carried as `Float`; no claim
computes with them. `Vec<u8>` entry types are `List Nat`. -/
structure GeomaterialsQuery where
  name : Option String
  q : Option String
  ima : Option Bool
  ima_status : Option (List ImaStatus)
  ima_notes : Option (List ImaNotes)
  entrytype : Option (List Nat)
  elements_inc : Option String
  elements_exc : Option String
  crystal_system : Option (List CrystalSystem)
  cleavagetype : Option (List CleavageType)
  fracturetype : Option (List FractureType)
  lustretype : Option (List LustreType)
  diapheny : Option (List Diapheny)
  tenacity : Option (List Tenacity)
  colour : Option String
  streak : Option String
  opticaltype : Option OpticalType
  opticalsign : Option OpticalSign
  hardness_min : Option Float
  hardness_max : Option Float
  density_min : Option Float
  density_max : Option Float
  ri_min : Option Float
  ri_max : Option Float
  bi_min : Option String
  bi_max : Option String
  optical2v_min : Option String
  optical2v_max : Option String
  varietyof : Option Int
  synid : Option Int
  polytypeof : Option Int
  groupid : Option Int
  id_in : Option (List Int)
  non_utf : Option Bool
  meteoritical_code : Option String
  meteoritical_code_exists : Option Bool
  updated_at : Option String
  fields : Option String
  omitted : Option String
  expand : Option (List String)
  ordering : Option GeomaterialsOrdering
  page : Option Int
  page_size : Option Int

/-- `GeomaterialsQuery::new()` = `Default::default()` (geomaterials.rs
derives `Default`, line 367): every field `None`. The source field `omit` is
spelled `omitted` here because `omit` is a Lean keyword. -/
def geoEmpty : GeomaterialsQuery :=
  ⟨none, none, none, none, none, none, none, none, none, none, none,
   none, none, none, none, none, none, none, none, none, none, none,
   none, none, none, none, none, none, none, none, none, none, none,
   none, none, none, none, none, none, none, none, none, none⟩

/-- One serialized query-parameter value, tagged by its Rust type the way
reqwest's query serializer renders it. -/
inductive ParamValue where
  | str (s : String)
  | boolean (b : Bool)
  | int (n : Int)
  | float (x : Float)

/-- serde's `skip_serializing_if = "Option::is_none"`: a populated field
contributes one parameter, an unset field contributes nothing. -/
def optEntry (k : String) : Option ParamValue → List (String × ParamValue)
  | some v => [(k, v)]
  | none => []

/-- The query-parameter set reqwest serializes for
`MindatClient::geomaterials` (client.rs lines 227-322): the local
`QueryParams` struct in source order, each field under
`skip_serializing_if = "Option::is_none"`. The `ordering` field is sent as
`query.ordering.map(|o| o.to_string())`. Fields of `GeomaterialsQuery` that
`QueryParams` does not name (`ima_status`, `ima_notes`, `entrytype`,
`crystal_system`, `cleavagetype`, `fracturetype`, `lustretype`, `diapheny`,
`tenacity`, `opticaltype`, `opticalsign`, `id_in`, `expand`) are never copied
into it and therefore never reach the request. This definition covers the
`QueryParams` fields `name` through `density_min`; the next two continue in
source order. -/
def serializeGeomaterialsA (qy : GeomaterialsQuery) : List (String × ParamValue) :=
  List.flatten
    [optEntry "name" (qy.name.map .str),
     optEntry "q" (qy.q.map .str),
     optEntry "ima" (qy.ima.map .boolean),
     optEntry "elements_inc" (qy.elements_inc.map .str),
     optEntry "elements_exc" (qy.elements_exc.map .str),
     optEntry "colour" (qy.colour.map .str),
     optEntry "streak" (qy.streak.map .str),
     optEntry "hardness_min" (qy.hardness_min.map .float),
     optEntry "hardness_max" (qy.hardness_max.map .float),
     optEntry "density_min" (qy.density_min.map .float)]

/-- `QueryParams` fields `density_max` through `polytypeof`, continuing
`serializeGeomaterialsA`. -/
def serializeGeomaterialsB (qy : GeomaterialsQuery) : List (String × ParamValue) :=
  List.flatten
    [optEntry "density_max" (qy.density_max.map .float),
     optEntry "ri_min" (qy.ri_min.map .float),
     optEntry "ri_max" (qy.ri_max.map .float),
     optEntry "bi_min" (qy.bi_min.map .str),
     optEntry "bi_max" (qy.bi_max.map .str),
     optEntry "optical2v_min" (qy.optical2v_min.map .str),
     optEntry "optical2v_max" (qy.optical2v_max.map .str),
     optEntry "varietyof" (qy.varietyof.map .int),
     optEntry "synid" (qy.synid.map .int),
     optEntry "polytypeof" (qy.polytypeof.map .int)]

/-- `QueryParams` fields `groupid` through `page_size`, continuing
`serializeGeomaterialsB`. -/
def serializeGeomaterialsC (qy : GeomaterialsQuery) : List (String × ParamValue) :=
  List.flatten
    [optEntry "groupid" (qy.groupid.map .int),
     optEntry "non_utf" (qy.non_utf.map .boolean),
     optEntry "meteoritical_code" (qy.meteoritical_code.map .str),
     optEntry "meteoritical_code_exists" (qy.meteoritical_code_exists.map .boolean),
     optEntry "updated_at" (qy.updated_at.map .str),
     optEntry "fields" (qy.fields.map .str),
     optEntry "omit" (qy.omitted.map .str),
     optEntry "ordering" (qy.ordering.map (fun o => .str o.toToken)),
     optEntry "page" (qy.page.map .int),
     optEntry "page_size" (qy.page_size.map .int)]

/-- All thirty `QueryParams` fields in source order, split in three only to
keep each definition small. -/
def serializeGeomaterials (qy : GeomaterialsQuery) : List (String × ParamValue) :=
  serializeGeomaterialsA qy ++ serializeGeomaterialsB qy ++ serializeGeomaterialsC qy

/-- The claim's example query: `GeomaterialsQuery::new().name("quartz")
.ima_approved(true)` (the two setters, geomaterials.rs lines 464-479). -/
def geoQuartz : GeomaterialsQuery :=
  { geoEmpty with name := some "quartz", ima := some true }

/-- A query whose only populated filter is `entrytype`, set through the
`entry_types` builder (geomaterials.rs lines 482-485). -/
def geoEntry7 : GeomaterialsQuery :=
  { geoEmpty with entrytype := some [7] }

/-! Helper lemmas. -/

/-- A JSON array made of strings decodes elementwise back to those strings. -/
theorem asStringList?_map (l : List String) :
    asStringList? (l.map Json.str) = some l := by
  induction l with
  | nil => rfl
  | cons s t ih => simp [asStringList?, ih]

/-- Elementwise decode of `i32` succeeds on an integral number in range. -/
theorem jsonI32?_intCast (n : Int) (h1 : -(2 ^ 31) ≤ n) (h2 : n < 2 ^ 31) :
    jsonI32? (Json.num (n : ℚ)) = some n := by
  simp only [jsonI32?]
  rw [if_pos ⟨Rat.den_intCast n, by rw [Rat.num_intCast]; exact h1,
      by rw [Rat.num_intCast]; exact h2⟩]
  rw [Rat.num_intCast]

/-- A JSON array of integral numbers in i32 range decodes elementwise back to
those integers. -/
theorem decodeList?_i32_map (l : List Int)
    (h : ∀ n ∈ l, -(2 ^ 31) ≤ n ∧ n < 2 ^ 31) :
    decodeList? jsonI32? (l.map (fun n : Int => Json.num (n : ℚ))) = some l := by
  induction l with
  | nil => rfl
  | cons n t ih =>
    have hn := h n (List.mem_cons_self n t)
    have ht := ih fun m hm => h m (List.mem_cons_of_mem n hm)
    simp only [List.map_cons, decodeList?, jsonI32?_intCast n hn.1 hn.2, ht]
    rfl

/-- The remainder-based `div_ceil` agrees with the `(a + p - 1) / p` form of
ceiling division for a positive divisor. -/
theorem divCeilUsize_eq (a p : Nat) (hp : 0 < p) :
    divCeilUsize a p = (a + p - 1) / p := by
  obtain ⟨q, r, hr, rfl⟩ : ∃ q r, r < p ∧ a = p * q + r :=
    ⟨a / p, a % p, Nat.mod_lt a hp, (Nat.div_add_mod a p).symm⟩
  unfold divCeilUsize
  rw [Nat.mul_add_div hp, Nat.mul_add_mod, Nat.div_eq_of_lt hr,
      Nat.mod_eq_of_lt hr]
  rcases Nat.eq_zero_or_pos r with h0 | h0
  · subst h0
    rw [if_neg (by omega)]
    have h2 : p * q + 0 + p - 1 = (p - 1) + p * q := by omega
    rw [h2, Nat.add_mul_div_left _ _ hp, Nat.div_eq_of_lt (by omega)]
    omega
  · rw [if_pos h0]
    have h2 : p * q + r + p - 1 = (r - 1) + p * (q + 1) := by
      rw [Nat.mul_succ]; omega
    rw [h2, Nat.add_mul_div_left _ _ hp, Nat.div_eq_of_lt (by omega)]
    omega

/-- The `as usize` cast is the identity on nonnegative `i64` values. -/
theorem i64AsUsize_of_nonneg (c : Int) (h0 : 0 ≤ c) (h : c < 2 ^ 63) :
    i64AsUsize c = c.toNat := by
  unfold i64AsUsize
  rw [Int.emod_eq_of_lt h0 (by omega)]

/-! Theorems for the claims. -/

/-- C1: the claim says every populated field of a `GeomaterialsQuery` appears
in the serialized request. The code contradicts it: `geoEntry7` has its
`entrytype` filter populated, yet its request carries no parameters at all,
because `MindatClient::geomaterials` never copies `entrytype` (or twelve
other filters) into its `QueryParams`. The quartz/ima example of the claim
does hold, showing the mapped fields serialize as specified. -/
theorem geomaterials_drops_populated_entrytype :
    geoEntry7.entrytype = some [7]
  ∧ serializeGeomaterials geoEntry7 = []
  ∧ serializeGeomaterials geoQuartz =
      [("name", .str "quartz"), ("ima", .boolean true)] :=
  ⟨rfl, rfl, rfl⟩

/-- C2: `handle_response` classifies a 401 status as authentication-required,
404 as not-found carrying the body text, 429 as rate-limited, any other
non-2xx status as the generic API error carrying status and body, and a 2xx
response whose body fails to decode as a deserialization failure — a
constructor distinct from the transport-failure constructor. -/
theorem handle_response_classifies_status {α : Type}
    (dec : String → Except String α) (status : Nat) (body : String) :
    (status = 401 → handle_response dec status body = .error .AuthenticationRequired)
  ∧ (status = 404 → handle_response dec status body = .error (.NotFound body))
  ∧ (status = 429 → handle_response dec status body = .error .RateLimited)
  ∧ (¬ (200 ≤ status ∧ status ≤ 299) → status ≠ 401 → status ≠ 404 → status ≠ 429 →
      handle_response dec status body = .error (.Api status body))
  ∧ (∀ e, 200 ≤ status → status ≤ 299 → dec body = .error e →
      handle_response dec status body = .error (.Deserialization e))
  ∧ (∀ m t, MindatError.Deserialization m ≠ MindatError.Request t) := by
  refine ⟨?_, ?_, ?_, ?_, ?_, ?_⟩
  · intro h; subst h; rfl
  · intro h; subst h; rfl
  · intro h; subst h; rfl
  · intro hns h1 h4 h9
    have hs : ¬ isSuccess status = true := by
      simp only [isSuccess, Bool.and_eq_true, decide_eq_true_eq]
      exact fun hc => hns hc
    unfold handle_response
    rw [if_neg hs, if_neg h1, if_neg h4, if_neg h9]
  · intro e h2 h9 hde
    have hs : isSuccess status = true := by
      simp only [isSuccess, Bool.and_eq_true, decide_eq_true_eq]
      exact ⟨h2, h9⟩
    unfold handle_response
    rw [if_pos hs, hde]
  · intro m t h
    exact MindatError.noConfusion h

/-- C2 witness: the classification at concrete statuses, with a decoder that
fails on every body. -/
theorem handle_response_classifies_status_witness :
    handle_response (fun _ => (.error "bad" : Except String Unit)) 401 "b" =
      .error .AuthenticationRequired
  ∧ handle_response (fun _ => (.error "bad" : Except String Unit)) 404 "nf" =
      .error (.NotFound "nf")
  ∧ handle_response (fun _ => (.error "bad" : Except String Unit)) 429 "r" =
      .error .RateLimited
  ∧ handle_response (fun _ => (.error "bad" : Except String Unit)) 500 "x" =
      .error (.Api 500 "x")
  ∧ handle_response (fun _ => (.error "bad" : Except String Unit)) 200 "j" =
      .error (.Deserialization "bad") :=
  ⟨(handle_response_classifies_status _ 401 "b").1 rfl,
   (handle_response_classifies_status _ 404 "nf").2.1 rfl,
   (handle_response_classifies_status _ 429 "r").2.2.1 rfl,
   (handle_response_classifies_status _ 500 "x").2.2.2.1 (by omega)
     (by omega) (by omega) (by omega),
   (handle_response_classifies_status _ 200 "j").2.2.2.2.1 "bad" (by omega)
     (by omega) rfl⟩

/-- C3: the optional-number decoder maps the empty string to absent, the
numeric string "7.5" to the number 7.5, any native number to itself (so 7.5
to 7.5), null to absent, and any non-empty string that fails the numeric
parse to absent rather than to a decode error. -/
theorem optional_f64_decode_lenient :
    deserialize_optional_f64 (.str "") = .ok none
  ∧ deserialize_optional_f64 (.str "7.5") = .ok (some (15 / 2 : ℚ))
  ∧ (∀ q : ℚ, deserialize_optional_f64 (.num q) = .ok (some q))
  ∧ deserialize_optional_f64 .null = .ok none
  ∧ (∀ s, s ≠ "" → parseF64? s = none → deserialize_optional_f64 (.str s) = .ok none) := by
  refine ⟨rfl, ?_, fun q => rfl, rfl, ?_⟩
  · rw [show (15 / 2 : ℚ) = mkRat 15 2 from by rw [Rat.mkRat_eq_div]; norm_num]
    rfl
  · intro s hs hp
    simp [deserialize_optional_f64, hs, hp]

/-- C3 witness: the parse-failure arm at the concrete non-numeric string. -/
theorem optional_f64_decode_lenient_witness :
    deserialize_optional_f64 (.str "12abc") = .ok none :=
  optional_f64_decode_lenient.2.2.2.2 "12abc" (by decide) (by decide)

/-- C4: the optional-string-sequence decoder maps the bare string "Au" (and
any non-empty bare string) to a one-element sequence, the empty string and
null to absent, and any array of strings to the same elements in order. -/
theorem optional_vec_string_decode_lenient :
    deserialize_optional_vec_string (.str "Au") = .ok (some ["Au"])
  ∧ (∀ s, s ≠ "" → deserialize_optional_vec_string (.str s) = .ok (some [s]))
  ∧ deserialize_optional_vec_string (.str "") = .ok none
  ∧ deserialize_optional_vec_string .null = .ok none
  ∧ deserialize_optional_vec_string (.arr [.str "Au", .str "Ag"]) =
      .ok (some ["Au", "Ag"])
  ∧ (∀ l : List String, deserialize_optional_vec_string (.arr (l.map .str)) =
      .ok (some l)) := by
  refine ⟨rfl, ?_, rfl, rfl, rfl, ?_⟩
  · intro s hs
    simp [deserialize_optional_vec_string, hs]
  · intro l
    simp [deserialize_optional_vec_string, asStringList?_map]

/-- C4 witness: the bare-string arm at the concrete string of the claim. -/
theorem optional_vec_string_decode_lenient_witness :
    deserialize_optional_vec_string (.str "Au") = .ok (some ["Au"]) :=
  optional_vec_string_decode_lenient.2.1 "Au" (by decide)

/-- C5: the sequence decoders whose element type is not string-compatible
(the i32-sequence decoder and the generic structured-sequence decoder) map a
bare non-empty string to absent — not to a one-element sequence and not to an
error — map the empty string and null to absent too, and pass a well-typed
array through unchanged. -/
theorem non_string_sequence_decoders_drop_scalars {α : Type}
    (dec : Json → Option α) :
    (∀ s, s ≠ "" → deserialize_optional_vec_i32 (.str s) = .ok none)
  ∧ deserialize_optional_vec_i32 (.str "") = .ok none
  ∧ deserialize_optional_vec_i32 .null = .ok none
  ∧ (∀ l : List Int, (∀ n ∈ l, -(2 ^ 31) ≤ n ∧ n < 2 ^ 31) →
      deserialize_optional_vec_i32 (.arr (l.map (fun n : Int => Json.num (n : ℚ)))) =
        .ok (some l))
  ∧ (∀ s, s ≠ "" → deserialize_optional_vec dec (.str s) = .ok none)
  ∧ deserialize_optional_vec dec (.str "") = .ok none
  ∧ deserialize_optional_vec dec .null = .ok none
  ∧ (∀ js vs, decodeList? dec js = some vs →
      deserialize_optional_vec dec (.arr js) = .ok (some vs)) := by
  refine ⟨?_, rfl, rfl, ?_, ?_, rfl, rfl, ?_⟩
  · intro s hs
    simp [deserialize_optional_vec_i32, hs]
  · intro l hl
    simp [deserialize_optional_vec_i32, decodeList?_i32_map l hl]
  · intro s hs
    simp [deserialize_optional_vec, hs]
  · intro js vs h
    simp [deserialize_optional_vec, h]

/-- C5 witness: the bare-string and well-typed-array arms at concrete inputs,
with the i32 element decoder standing in for the structured element type. -/
theorem non_string_sequence_decoders_drop_scalars_witness :
    deserialize_optional_vec_i32 (.str "Au") = .ok none
  ∧ deserialize_optional_vec_i32 (.arr [.num ((5 : Int) : ℚ)]) = .ok (some [5])
  ∧ deserialize_optional_vec jsonI32? (.str "Au") = .ok none :=
  ⟨(non_string_sequence_decoders_drop_scalars jsonI32?).1 "Au" (by decide),
   (non_string_sequence_decoders_drop_scalars jsonI32?).2.2.2.1 [5]
     (by intro n hn; simp at hn; omega),
   (non_string_sequence_decoders_drop_scalars jsonI32?).2.2.2.2.1 "Au" (by decide)⟩

/-- C6 counterexample: the claim quantifies over every page size, but with
the total count present and page size 0 the code does not return the ceiling
(or anything): `usize::div_ceil` divides by zero and panics, modelled as
`.error ()`. -/
theorem total_pages_zero_page_size_counterexample :
    PaginatedResponse.total_pages ⟨some 25, none, none, ([] : List Unit)⟩ 0 =
      .error () := rfl

/-- C6 (amended to positive page sizes): for every envelope and positive page
size, a known nonnegative total count yields the integer ceiling of count
divided by page size, and an absent count yields absent. -/
theorem total_pages_ceiling_division {α : Type} (r : PaginatedResponse α)
    (p : Nat) (hp : 0 < p) :
    (∀ c : Int, r.count = some c → 0 ≤ c → c < 2 ^ 63 →
        r.total_pages p = .ok (some ((c.toNat + p - 1) / p)))
  ∧ (r.count = none → r.total_pages p = .ok none) := by
  constructor
  · intro c hc h0 h63
    simp only [PaginatedResponse.total_pages, hc]
    rw [if_neg (by omega : ¬ p = 0), i64AsUsize_of_nonneg c h0 h63,
        divCeilUsize_eq _ _ hp]
  · intro hc
    simp [PaginatedResponse.total_pages, hc]

/-- C6 witness: count 25 at page size 10 gives 3 pages, count 20 gives 2,
and an absent count gives absent. -/
theorem total_pages_ceiling_division_witness :
    PaginatedResponse.total_pages ⟨some 25, none, none, ([] : List Unit)⟩ 10 =
      .ok (some 3)
  ∧ PaginatedResponse.total_pages ⟨some 20, none, none, ([] : List Unit)⟩ 10 =
      .ok (some 2)
  ∧ PaginatedResponse.total_pages ⟨none, none, none, ([] : List Unit)⟩ 10 =
      .ok none :=
  ⟨(total_pages_ceiling_division _ 10 (by omega)).1 25 rfl (by omega) (by omega),
   (total_pages_ceiling_division _ 10 (by omega)).1 20 rfl (by omega) (by omega),
   (total_pages_ceiling_division _ 10 (by omega)).2 rfl⟩

/-- C7: `next_cursor` and `next_page` read the `cursor` (resp. `page`) query
parameter out of the next URL; they yield absent — without any failure — when
the next URL is absent, when it does not parse, and when it lacks the
parameter; on the claim's concrete URL, `next_cursor` yields "abc123". -/
theorem next_cursor_next_page_extraction :
    (∀ r : CursorPaginatedResponse Unit, r.next = none →
        r.next_cursor = none ∧ r.next_page = none)
  ∧ (∀ (r : CursorPaginatedResponse Unit) (u : String), r.next = some u →
        urlQueryPairs? u = none → r.next_cursor = none ∧ r.next_page = none)
  ∧ (∀ (r : CursorPaginatedResponse Unit) (u : String) ps, r.next = some u →
        urlQueryPairs? u = some ps → (∀ kv ∈ ps, kv.1 ≠ "cursor") →
        r.next_cursor = none)
  ∧ (∀ (r : CursorPaginatedResponse Unit) (u : String) ps, r.next = some u →
        urlQueryPairs? u = some ps → (∀ kv ∈ ps, kv.1 ≠ "page") →
        r.next_page = none)
  ∧ CursorPaginatedResponse.next_cursor
      ⟨some "https://host/path/?cursor=abc123&page_size=10", none,
       ([] : List Unit)⟩ = some "abc123"
  ∧ urlQueryPairs? "not a url" = none := by
  refine ⟨?_, ?_, ?_, ?_, by decide, by decide⟩
  · intro r h
    constructor <;>
      simp [CursorPaginatedResponse.next_cursor, CursorPaginatedResponse.next_page, h]
  · intro r u h hq
    constructor <;>
      simp [CursorPaginatedResponse.next_cursor, CursorPaginatedResponse.next_page,
        h, hq]
  · intro r u ps h hq hmiss
    have hfind : ps.find? (fun p => p.1 = "cursor") = none := by
      rw [List.find?_eq_none]
      intro x hx
      simp only [decide_eq_true_eq]
      exact hmiss x hx
    simp [CursorPaginatedResponse.next_cursor, h, hq, hfind]
  · intro r u ps h hq hmiss
    have hfind : ps.find? (fun p => p.1 = "page") = none := by
      rw [List.find?_eq_none]
      intro x hx
      simp only [decide_eq_true_eq]
      exact hmiss x hx
    simp [CursorPaginatedResponse.next_page, h, hq, hfind]

/-- C7 witness: the absent-URL, unparsable-URL and missing-parameter arms at
concrete envelopes. -/
theorem next_cursor_next_page_extraction_witness :
    (CursorPaginatedResponse.next_cursor ⟨none, none, ([] : List Unit)⟩ = none
      ∧ CursorPaginatedResponse.next_page ⟨none, none, ([] : List Unit)⟩ = none)
  ∧ (CursorPaginatedResponse.next_cursor ⟨some "not a url", none,
        ([] : List Unit)⟩ = none
      ∧ CursorPaginatedResponse.next_page ⟨some "not a url", none,
        ([] : List Unit)⟩ = none)
  ∧ CursorPaginatedResponse.next_cursor ⟨some "https://host/?page=2", none,
      ([] : List Unit)⟩ = none :=
  ⟨next_cursor_next_page_extraction.1 ⟨none, none, []⟩ rfl,
   next_cursor_next_page_extraction.2.1 ⟨some "not a url", none, []⟩ "not a url"
     rfl (by decide),
   next_cursor_next_page_extraction.2.2.1 ⟨some "https://host/?page=2", none, []⟩
     "https://host/?page=2" [("page", "2")] rfl (by decide) (by decide)⟩

/-- C8: every `GeomaterialsOrdering` variant serializes to its fixed upstream
token, parsing that token back yields the variant, and the variant-to-token
map is injective, so distinct variants have distinct tokens. -/
theorem geomaterials_ordering_token_bijection :
    (∀ o : GeomaterialsOrdering, GeomaterialsOrdering.fromToken? o.toToken = some o)
  ∧ (∀ a b : GeomaterialsOrdering, a.toToken = b.toToken ↔ a = b)
  ∧ GeomaterialsOrdering.Name.toToken = "name"
  ∧ GeomaterialsOrdering.NameDesc.toToken = "-name" := by
  refine ⟨by decide, ?_, rfl, rfl⟩
  intro a b
  constructor
  · revert a b; decide
  · intro h; rw [h]

/-- C9 counterexample: the claim says the decoders never return a decode
error on any well-formed JSON input, but an object offered to the number
decoder and a fractional number offered to the integer decoder both fail
every variant of the untagged enum and yield a decode error. -/
theorem scalar_decoder_errors_outside_enumerated_shapes :
    deserialize_optional_f64 (.obj []) = .error untaggedError
  ∧ deserialize_optional_i32 (.num (mkRat 15 2)) = .error untaggedError :=
  ⟨rfl, rfl⟩

/-- C9 (amended to the enumerated shapes): the decoders are total functions
that never return a decode error on the shapes the spec enumerates — any
string, null, any number for the f64 decoder, and any integral number in i64
range for the i32 decoder. -/
theorem scalar_decoders_total_on_enumerated_shapes :
    (∀ s : String, ∃ v, deserialize_optional_f64 (.str s) = .ok v)
  ∧ (∀ q : ℚ, ∃ v, deserialize_optional_f64 (.num q) = .ok v)
  ∧ (∃ v, deserialize_optional_f64 .null = .ok v)
  ∧ (∀ s : String, ∃ v, deserialize_optional_i32 (.str s) = .ok v)
  ∧ (∀ n : Int, -(2 ^ 63) ≤ n → n < 2 ^ 63 →
      ∃ v, deserialize_optional_i32 (.num (n : ℚ)) = .ok v)
  ∧ (∃ v, deserialize_optional_i32 .null = .ok v) := by
  refine ⟨?_, fun q => ⟨some q, rfl⟩, ⟨none, rfl⟩, ?_, ?_, ⟨none, rfl⟩⟩
  · intro s
    by_cases h : s = "" <;> simp [deserialize_optional_f64, h]
  · intro s
    by_cases h : s = "" <;> simp [deserialize_optional_i32, h]
  · intro n h1 h2
    refine ⟨some (wrapI32 n), ?_⟩
    simp only [deserialize_optional_i32]
    rw [if_pos ⟨Rat.den_intCast n, by rw [Rat.num_intCast]; exact h1,
        by rw [Rat.num_intCast]; exact h2⟩]
    rw [Rat.num_intCast]

/-- C9 witness: totality at a concrete string and a concrete integral
number. -/
theorem scalar_decoders_total_on_enumerated_shapes_witness :
    (∃ v, deserialize_optional_f64 (.str "xyz") = .ok v)
  ∧ (∃ v, deserialize_optional_i32 (.num ((5 : Int) : ℚ)) = .ok v) :=
  ⟨scalar_decoders_total_on_enumerated_shapes.1 "xyz",
   scalar_decoders_total_on_enumerated_shapes.2.2.2.2.1 5 (by omega) (by omega)⟩

/-- C10: with the total count present, `total_pages` at page size 0 hits the
division-by-zero panic of `usize::div_ceil` instead of returning, and for
every positive page size it always returns a value. -/
theorem total_pages_zero_page_size_partiality {α : Type}
    (r : PaginatedResponse α) :
    (∀ c : Int, r.count = some c → r.total_pages 0 = .error ())
  ∧ (∀ p : Nat, 0 < p → ∃ v, r.total_pages p = .ok v) := by
  constructor
  · intro c hc
    simp [PaginatedResponse.total_pages, hc]
  · intro p hp
    match hc : r.count with
    | none => exact ⟨none, by simp [PaginatedResponse.total_pages, hc]⟩
    | some c =>
      refine ⟨some (divCeilUsize (i64AsUsize c) p), ?_⟩
      simp only [PaginatedResponse.total_pages, hc]
      rw [if_neg (by omega : ¬ p = 0)]

/-- C10 witness: the panic at page size 0 and the return at page size 10, on
a concrete envelope. -/
theorem total_pages_zero_page_size_partiality_witness :
    PaginatedResponse.total_pages ⟨some 25, none, none, ([] : List Unit)⟩ 0 =
      .error ()
  ∧ ∃ v, PaginatedResponse.total_pages ⟨some 25, none, none, ([] : List Unit)⟩ 10 =
      .ok v :=
  ⟨(total_pages_zero_page_size_partiality ⟨some 25, none, none, []⟩).1 25 rfl,
   (total_pages_zero_page_size_partiality ⟨some 25, none, none, []⟩).2 10 (by omega)⟩

end Mindat
